import Mathlib

set_option maxRecDepth 100000

/-!
Shallow embedding of the minicpgc copying garbage collector
(`gc.c`: `heap_init`, `mini_cpgc_malloc`, `mini_cpgc_free`, `copy`,
`swap`, `copying`).

Memory is modelled byte-addressed (`Mem := Nat → Nat`); `size_t` values
are 64-bit words stored little-endian, and all `size_t` arithmetic wraps
modulo `2 ^ 64`.  The three globals `free_list`, `from_start`, `to_start`
form the machine state together with the memory.  The addresses returned
by the bulk `malloc` calls in `heap_init`, and the initial (uninitialized)
content of memory, are parameters of the model.
-/

namespace MiniCpgc

/-- `size_t` modulus: all pointer/size arithmetic in the C source is done
in 64-bit `size_t` and wraps modulo `2 ^ 64`. -/
def W : Nat := 2 ^ 64

/-- `#define PTRSIZE ((size_t)sizeof(void *))` — 8 on the 64-bit target. -/
def PTRSIZE : Nat := 8

/-- `sizeof(Heap_Header)` = 3 × 8 bytes (`size`, `current`, `end`). -/
def HEAP_HEADER_SIZE : Nat := 24

/-- `sizeof(Block_Header)` = 3 × 8 bytes (`flags`, `size`, `next_free`). -/
def BLOCK_HEADER_SIZE : Nat := 24

/-- `#define TINY_HEAP_SIZE 0x4000` -/
def TINY_HEAP_SIZE : Nat := 0x4000

/-- `#define FL_ALLOC 0x1` -/
def FL_ALLOC : Nat := 1

/-- `#define FL_FREE 0x0` -/
def FL_FREE : Nat := 0

/-- Byte-addressed memory. -/
abbrev Mem := Nat → Nat

/-- Store one byte. -/
def writeByte (m : Mem) (a v : Nat) : Mem := fun x => if x = a then v else m x

/-- Read a 64-bit little-endian word at byte address `a`. -/
def readWord (m : Mem) (a : Nat) : Nat :=
  m a + 256 * (m (a + 1) + 256 * (m (a + 2) + 256 * (m (a + 3) + 256 *
    (m (a + 4) + 256 * (m (a + 5) + 256 * (m (a + 6) + 256 * m (a + 7)))))))

/-- Store a 64-bit little-endian word at byte address `a`. -/
def writeWord (m : Mem) (a v : Nat) : Mem :=
  writeByte (writeByte (writeByte (writeByte (writeByte (writeByte (writeByte
    (writeByte m a (v % 256))
    (a + 1) (v / 256 % 256))
    (a + 2) (v / 65536 % 256))
    (a + 3) (v / 16777216 % 256))
    (a + 4) (v / 4294967296 % 256))
    (a + 5) (v / 1099511627776 % 256))
    (a + 6) (v / 281474976710656 % 256))
    (a + 7) (v / 72057594037927936 % 256)

/-- `memcpy(dst, src, n)` on non-overlapping regions: bytes
`[dst, dst+n)` become the bytes `[src, src+n)` of the original memory. -/
def memcpy (m : Mem) (dst src n : Nat) : Mem :=
  fun x => if dst ≤ x ∧ x < dst + n then m (src + (x - dst)) else m x

/-- `#define ALIGN(x, a) (((x) + (a - 1)) & ~(a - 1))` in 64-bit
arithmetic: the sum wraps modulo `2 ^ 64` and `~(a - 1)` is the 64-bit
mask `2 ^ 64 - a`. -/
def ALIGN (x a : Nat) : Nat := ((x + (a - 1)) % W) &&& (W - a)

/-- The collector's global state: memory plus the three globals
`Block_Header *free_list` (0 = NULL), `Heap_Header *from_start`,
`Heap_Header *to_start`. -/
structure GCState where
  mem : Mem
  free_list : Nat
  from_start : Nat
  to_start : Nat

/-- `#define NEXT_HEADER(x) ((Block_Header *)((size_t)(x + 1) + x->size))`:
the address one block-header stride plus `x->size` past `x`. -/
def NEXT_HEADER (m : Mem) (x : Nat) : Nat :=
  (x + BLOCK_HEADER_SIZE + readWord m ((x + 8) % W)) % W

/-- All-zero initial memory (one convenient instance of the
unspecified content `malloc` hands back). -/
def zeroMem : Mem := fun _ => 0

/-- `from_start->current` of the active space, read from memory
(offset 8 inside the `Heap_Header`). -/
def currentOf (s : GCState) : Nat := readWord s.mem ((s.from_start + 8) % W)

/-- `from_start->end` of the active space, read from memory
(offset 16 inside the `Heap_Header`). -/
def endOf (s : GCState) : Nat := readWord s.mem ((s.from_start + 16) % W)

/-- `heap_init(req_size)`: raises `req_size` to `TINY_HEAP_SIZE`, aligns
the two `malloc` results `p1`, `p2`, and fills both `Heap_Header`s.
`size = req`; `current = (size_t)(from_start + 1)` (= start + 24);
`end = (size_t)(from_start + 1 + req_size)` — `Heap_Header*` pointer
arithmetic, hence start + 24·(1+req).  `free_list` keeps its startup
value NULL; `m0` is the (uninitialized) content of memory. -/
def heap_init (m0 : Mem) (req_size p1 p2 : Nat) : GCState :=
  let r := if req_size < TINY_HEAP_SIZE then TINY_HEAP_SIZE else req_size
  let fs := ALIGN p1 PTRSIZE
  let m1 := writeWord m0 fs r
  let m2 := writeWord m1 ((fs + 8) % W) ((fs + HEAP_HEADER_SIZE) % W)
  let m3 := writeWord m2 ((fs + 16) % W) ((fs + HEAP_HEADER_SIZE * (1 + r)) % W)
  let ts := ALIGN p2 PTRSIZE
  let m4 := writeWord m3 ts r
  let m5 := writeWord m4 ((ts + 8) % W) ((ts + HEAP_HEADER_SIZE) % W)
  let m6 := writeWord m5 ((ts + 16) % W) ((ts + HEAP_HEADER_SIZE * (1 + r)) % W)
  { mem := m6, free_list := 0, from_start := fs, to_start := ts }

/-- `mini_cpgc_malloc(req_size)`: aligns the request; `req_size <= 0`
(for `size_t`: `= 0`) returns NULL.  Otherwise the block header is
written at the bump cursor (`p->size`, then `p->flags = FL_ALLOC`), the
cursor is advanced by the aligned size only, and `(void *)(p + 1)` is
returned. -/
def mini_cpgc_malloc (req_size : Nat) (s : GCState) : Option Nat × GCState :=
  let r := ALIGN req_size PTRSIZE
  if r = 0 then (none, s)
  else
    let p := readWord s.mem ((s.from_start + 8) % W)
    let m1 := writeWord s.mem ((p + 8) % W) r
    let m2 := writeWord m1 (p % W) FL_ALLOC
    let m3 := writeWord m2 ((s.from_start + 8) % W)
      ((readWord m2 ((s.from_start + 8) % W) + r) % W)
    (some ((p + BLOCK_HEADER_SIZE) % W), { s with mem := m3 })

/-- The `for` search of `mini_cpgc_free`: starting at `free_list`, walk
`hit = hit->next_free` while `!(target > hit && target < hit->next_free)`,
breaking out at the wrap-around point
(`hit >= hit->next_free && (target > hit || target < hit->next_free)`).
`fuel` bounds the walk (the C loop has no intrinsic bound). -/
def searchLoop (m : Mem) (target : Nat) : Nat → Nat → Nat
  | 0, hit => hit
  | fuel + 1, hit =>
    if target > hit ∧ target < readWord m ((hit + 16) % W) then hit
    else if hit ≥ readWord m ((hit + 16) % W) ∧
        (target > hit ∨ target < readWord m ((hit + 16) % W)) then hit
    else searchLoop m target fuel (readWord m ((hit + 16) % W))

/-- `mini_cpgc_free(ptr)`: `target = (Block_Header *)ptr - 1`.  On an
empty free list, make `target` the single self-linked member and flag it
FL_FREE.  Otherwise find the join point `hit`, then: if
`NEXT_HEADER(target) == hit->next_free` merge the next member into
`target` (its size plus one header), else link `target` to it; if
`NEXT_HEADER(hit) == target` merge `target` into `hit`, else link `hit`
to `target`; finally `free_list = hit`.  The non-empty path never writes
`target->flags`.  Every field access is a fresh memory read, in source
order. -/
def mini_cpgc_free (fuel : Nat) (ptr : Nat) (s : GCState) : GCState :=
  let target := (ptr + (W - BLOCK_HEADER_SIZE)) % W
  if s.free_list = 0 then
    { s with free_list := target,
             mem := writeWord (writeWord s.mem ((target + 16) % W) target)
                      target FL_FREE }
  else
    let hit := searchLoop s.mem target fuel s.free_list
    let nf1 := readWord s.mem ((hit + 16) % W)
    let m2 :=
      if NEXT_HEADER s.mem target = nf1 then
        let msz := writeWord s.mem ((target + 8) % W)
          ((readWord s.mem ((target + 8) % W) +
            readWord s.mem ((nf1 + 8) % W) + BLOCK_HEADER_SIZE) % W)
        writeWord msz ((target + 16) % W)
          (readWord msz ((readWord msz ((hit + 16) % W) + 16) % W))
      else
        writeWord s.mem ((target + 16) % W) (readWord s.mem ((hit + 16) % W))
    let m4 :=
      if NEXT_HEADER m2 hit = target then
        let msz2 := writeWord m2 ((hit + 8) % W)
          ((readWord m2 ((hit + 8) % W) +
            readWord m2 ((target + 8) % W) + BLOCK_HEADER_SIZE) % W)
        writeWord msz2 ((hit + 16) % W) (readWord msz2 ((target + 16) % W))
      else
        writeWord m2 ((hit + 16) % W) target
    { s with free_list := hit, mem := m4 }

/-- `copy(from_block, pfree)`: `memcpy(pfree, from_block,
BLOCK_HEADER_SIZE + from_block->size)`; the advance of the local
parameter `pfree` is lost at return.  Returns the destination pointer. -/
def copy (m : Mem) (from_block pfree : Nat) : Mem × Nat :=
  let n := (BLOCK_HEADER_SIZE + readWord m ((from_block + 8) % W)) % W
  (memcpy m pfree from_block n, pfree)

/-- `swap()`: exchange `from_start` and `to_start`, set `free_list` to
NULL.  No memory write. -/
def swap (s : GCState) : GCState :=
  { s with from_start := s.to_start, to_start := s.from_start, free_list := 0 }

/-- The scan loop of `copying()`: from `p` while
`(size_t)p < from_start->end` (re-read each iteration), copy the block
when `p->flags == FL_ALLOC` (to the loop-constant `pfree`), and step
`p = NEXT_HEADER(p)`.  `fuel` bounds the walk. -/
def copyLoop : Nat → Mem → Nat → Nat → Nat → Mem
  | 0, m, _, _, _ => m
  | fuel + 1, m, fs, pfree, p =>
    if p < readWord m ((fs + 16) % W) then
      let m' := if readWord m (p % W) = FL_ALLOC then (copy m p pfree).1 else m
      copyLoop fuel m' fs pfree (NEXT_HEADER m' p)
    else m

/-- `copying()`: `pfree = (void *)to_start + 1` (one **byte** past
`to_start` — `void*` arithmetic), scan from
`(Block_Header *)from_start + 1` (= from_start + 24), then `swap()`. -/
def copying (fuel : Nat) (s : GCState) : GCState :=
  let pfree := (s.to_start + 1) % W
  let p0 := (s.from_start + BLOCK_HEADER_SIZE) % W
  swap { s with mem := copyLoop fuel s.mem s.from_start pfree p0 }

/-- Iterated `next_free` dereference from `root`:
`followNf m root k` is the node reached after `k` steps. -/
def followNf (m : Mem) (root : Nat) : Nat → Nat
  | 0 => root
  | k + 1 => readWord m ((followNf m root k + 16) % W)

end MiniCpgc

namespace MiniCpgc

/-! ## Concrete machine states used in the analysis

All states are produced purely through the program's own entry points
(`heap_init`, `mini_cpgc_malloc`, `mini_cpgc_free`, `copying`), starting
from a concrete initial memory.  `heap_init`'s two bulk allocations are
placed at the (aligned) addresses 64 and 1048576, so the from-space
header sits at 64, its first usable byte at 88, the to-space header at
1048576.  Where a scan over uninitialized memory has to terminate, the
initial memory carries one nonzero byte that makes the uninitialized
"size" field huge, so `NEXT_HEADER` jumps past `end` (any content of the
uninitialized region is a legitimate execution). -/

/-- `heap_init(TINY_HEAP_SIZE)` on all-zero memory with the two spaces
at 64 and 1048576. -/
def sInit : GCState := heap_init zeroMem TINY_HEAP_SIZE 64 1048576

end MiniCpgc

namespace MiniCpgc

/-- C7: `heap_init` makes two equal-sized spaces of the floored request
and sets `current` to the first usable byte, but its `end` field is set
with `Heap_Header*` pointer arithmetic — `(size_t)(from_start + 1 +
req_size)` = start + 24·(1+req) = 393304 for the space at 64 — instead
of the claimed `start + size` (16448, or 16472 counting the space
header); the boundary lies far past the acquired memory. -/
theorem C7_end_boundary_wrong :
    sInit.from_start = 64 ∧ sInit.to_start = 1048576 ∧
    readWord sInit.mem 64 = 16384 ∧ readWord sInit.mem 1048576 = 16384 ∧
    currentOf sInit = 88 ∧
    endOf sInit = 393304 ∧ 16472 < endOf sInit := by decide

end MiniCpgc

namespace MiniCpgc

/-- State after `heap_init(TINY_HEAP_SIZE); mini_cpgc_malloc(24)`:
one successful allocation, its block header at 88 with size 24. -/
def sC3 : GCState := (mini_cpgc_malloc 24 sInit).2

/-- C3: after one successful allocation the cursor stands at 112
(advanced by the aligned size only), but the walk
`address → address + headerSize + header.size` from the first usable
address 88 lands at 136 — past the cursor.  The walk overshoots instead
of landing exactly on the cursor, because `mini_cpgc_malloc` advances
`current` by `req_size` without the `BLOCK_HEADER_SIZE` its own header
occupies, contradicting the `NEXT_HEADER` stride that `mini_cpgc_free`
and `copying` rely on. -/
theorem C3_walk_overshoots_cursor :
    currentOf sC3 = 112 ∧ readWord sC3.mem 96 = 24 ∧
    readWord sC3.mem 88 = FL_ALLOC ∧
    NEXT_HEADER sC3.mem 88 = 136 ∧ currentOf sC3 < NEXT_HEADER sC3.mem 88 := by
  decide

/-- Three allocations of 24, 24, 40 bytes: block X at 88 (size 24) and
block Y at 136 (size 40) are physically adjacent in the claim's sense —
Y's header starts at X's header + headerSize + X.size = 136. -/
def sC5pre : GCState :=
  (mini_cpgc_malloc 40 (mini_cpgc_malloc 24 (mini_cpgc_malloc 24 sInit).2).2).2

/-- `free(Y)` (payload pointer 160) then `free(X)` (payload pointer 112):
the higher-addressed adjacent block is released first. -/
def sC5 : GCState := mini_cpgc_free 10 112 (mini_cpgc_free 10 160 sC5pre)

/-- C5: blocks X@88 (size 24) and Y@136 (size 40) are physically
adjacent (`NEXT_HEADER X = 136`).  Releasing Y first and then X leaves
TWO free-list entries, not one: X absorbs Y's size (X.size = 24+40+24 =
88) but the list root is the absorbed block Y = 136, whose `next_free`
is X = 88, whose `next_free` is Y again.  The claimed single merged
entry rooted at the predecessor X appears only in the opposite order. -/
theorem C5_adjacent_free_leaves_two_entries :
    NEXT_HEADER sC5pre.mem 88 = 136 ∧
    readWord sC5pre.mem 96 = 24 ∧ readWord sC5pre.mem 144 = 40 ∧
    sC5.free_list = 136 ∧
    readWord sC5.mem 152 = 88 ∧ readWord sC5.mem 104 = 136 ∧
    readWord sC5.mem 96 = 88 ∧ readWord sC5.mem 144 = 40 ∧
    88 < sC5.free_list := by decide

/-- Initial memory for the C1 run: one nonzero byte at 219 makes the
uninitialized size field at 216 huge, so the scan's `NEXT_HEADER` jumps
past `end` right after the last real block. -/
def memC1 : Mem := fun a => if a = 219 then 64 else 0

/-- Blocks A@88 (size 24), B@112 (size 24), C@136 (size 48), all
FL_ALLOC (live), no frees. -/
def sC1pre : GCState :=
  (mini_cpgc_malloc 48 (mini_cpgc_malloc 24 (mini_cpgc_malloc 24
    (heap_init memC1 TINY_HEAP_SIZE 64 1048576)).2).2).2

/-- One collection cycle over `sC1pre`. -/
def sC1 : GCState := copying 10 sC1pre

/-- C1: before the cycle the live blocks A@88 (size 24) and C@136
(size 48) are both FL_ALLOC; the scan visits and copies both.  After the
cycle the reserve space holds C's image at `to_start + 1` — its size
field (at 1048585) reads 48, i.e. the second copy overwrote the first at
the very same destination, because `copying` passes `pfree` to `copy` by
value and never advances it.  The reserve's running cursor position
never receives a block: the word at 1048608, where the claim would place
the size field of a block copied at the reserve cursor 1048600, is 0.
The survivors are not contiguous at the running cursor — they are
stacked on one fixed address. -/
theorem C1_copy_not_compacting :
    readWord sC1pre.mem 88 = FL_ALLOC ∧ readWord sC1pre.mem 96 = 24 ∧
    readWord sC1pre.mem 136 = FL_ALLOC ∧ readWord sC1pre.mem 144 = 48 ∧
    sC1.from_start = 1048576 ∧
    readWord sC1.mem 1048585 = 48 ∧ readWord sC1.mem 1048608 = 0 := by
  decide

/-- Initial memory for the C2 run: the nonzero byte at 283 ends the scan
just past the last real block. -/
def memC2 : Mem := fun a => if a = 283 then 64 else 0

/-- Blocks A@88 (24), B@112 (24), C@136 (48), D@184 (24), E@208 (40);
then `free(A)` (pointer 112) and `free(E)` (pointer 232).  E is freed
while the free list is non-empty, the path that forgets to clear
FL_ALLOC. -/
def sC2pre : GCState :=
  mini_cpgc_free 10 232 (mini_cpgc_free 10 112
    ((mini_cpgc_malloc 40 (mini_cpgc_malloc 24 (mini_cpgc_malloc 48
      (mini_cpgc_malloc 24 (mini_cpgc_malloc 24
        (heap_init memC2 TINY_HEAP_SIZE 64 1048576)).2).2).2).2).2))

/-- One collection cycle over `sC2pre`. -/
def sC2 : GCState := copying 10 sC2pre

/-- C2: when the cycle starts, the free list is 88 → 208 → 88, so block
E@208 (size 40) is a member — yet its flags still read FL_ALLOC, because
the non-empty branch of `mini_cpgc_free` never writes `FL_FREE`.  The
scan therefore copies E: after the cycle the reserve holds E's image at
`to_start + 1` (its size field at 1048585 reads E's unique size 40).  A
block on the free list at collection start was copied. -/
theorem C2_freed_block_copied :
    sC2pre.free_list = 88 ∧ readWord sC2pre.mem 104 = 208 ∧
    readWord sC2pre.mem 216 = 40 ∧ readWord sC2pre.mem 208 = FL_ALLOC ∧
    readWord sC2.mem 1048585 = 40 := by decide

end MiniCpgc

namespace MiniCpgc

/-- C4 (amended): `swap()` exchanges the active/reserve identities and
clears the free list, and does nothing else — in particular it writes no
memory, so neither space's bookkeeping (`size`, `current`, `end`) is
reset. -/
theorem C4_swap_exchanges_and_clears_only (s : GCState) :
    (swap s).from_start = s.to_start ∧ (swap s).to_start = s.from_start ∧
    (swap s).free_list = 0 ∧ (swap s).mem = s.mem :=
  ⟨rfl, rfl, rfl, rfl⟩

/-- Initial memory for the C4 run: the byte at 147 ends the first
cycle's scan right after the single real block. -/
def memC4 : Mem := fun a => if a = 147 then 64 else 0

/-- `heap_init; malloc(24); copying(); copying()`: two full collection
cycles after a single allocation (block A@88, cursor left at 112). -/
def sC4 : GCState :=
  copying 10 (copying 10
    (mini_cpgc_malloc 24 (heap_init memC4 TINY_HEAP_SIZE 64 1048576)).2)

/-- C4 counterexample: after the second cycle the original space at 64
is active again, yet its cursor still reads 112 — the stale value the
pre-cycle allocation left, strictly past the first usable address 88 —
and block A's FL_ALLOC header still sits at 88.  No bookkeeping of the
newly-activated space was reset by either cycle's swap step, so the
space's previous content is not logically discarded.  (The
identity-exchange and empty-free-list parts of the claim do hold.) -/
theorem C4_no_bookkeeping_reset :
    sC4.from_start = 64 ∧ sC4.free_list = 0 ∧
    currentOf sC4 = 112 ∧ 88 < currentOf sC4 ∧
    readWord sC4.mem 88 = FL_ALLOC := by decide

/-- Blocks A@88 (8), B@96 (8), C@104 (112), T@216 (8); then `free(A)`
(pointer 112), `free(B)` (pointer 120), `free(T)` (pointer 240).
Because the malloc stride bug packs the 24-byte headers 8 bytes apart,
the third free's merge branch writes `hit->size` into the word at 104
that also holds member 88's `next_free`. -/
def sC8 : GCState :=
  mini_cpgc_free 10 240 (mini_cpgc_free 10 120 (mini_cpgc_free 10 112
    ((mini_cpgc_malloc 8 (mini_cpgc_malloc 112 (mini_cpgc_malloc 8
      (mini_cpgc_malloc 8 sInit).2).2).2).2)))

/-- Tail of the `next_free` orbit of `sC8`: from step 3 on it is stuck
at 0. -/
theorem sC8_follow_tail (j : Nat) : followNf sC8.mem 96 (j + 3) = 0 := by
  induction j with
  | zero => decide
  | succ n ih =>
    show readWord sC8.mem ((followNf sC8.mem 96 (n + 3) + 16) % W) = 0
    rw [ih]
    decide

/-- C8: after the three frees (no collection), the free-list root is 96
but following `next_free` gives 88, 128, 0, 0, 0, … — the orbit never
returns to the root (every value from step 1 on is 88, 128 or 0), so the
free list is not circular.  The merge in the third free wrote the new
`hit->size` (128) over the word at 104 that held member 88's
`next_free`, cutting the cycle. -/
theorem C8_free_list_not_circular :
    sC8.free_list = 96 ∧
    followNf sC8.mem 96 1 = 88 ∧ followNf sC8.mem 96 2 = 128 ∧
    ∀ j : Nat, followNf sC8.mem 96 (j + 3) = 0 :=
  ⟨by decide, by decide, by decide, sC8_follow_tail⟩

end MiniCpgc

namespace MiniCpgc

/-- C9: a zero-size request aligns to 0, fails the `req_size <= 0` test
and returns NULL with the machine state — cursor, free list, memory —
untouched.  (`size_t` is unsigned, so a negative size is not
representable at the call boundary; zero is the whole content of the
claim.) -/
theorem C9_zero_size_rejected (s : GCState) :
    mini_cpgc_malloc 0 s = (none, s) := by
  have h : ALIGN 0 PTRSIZE = 0 := by decide
  simp [mini_cpgc_malloc, h]

/-- C10: any request size above `2^64 - PTRSIZE + 1` makes
`ALIGN(req_size, PTRSIZE)` wrap modulo `2^64` to zero, so
`mini_cpgc_malloc` returns NULL and leaves the state — cursor and free
list included — unchanged, exactly like a zero-size request. -/
theorem C10_huge_request_rejected (s : GCState) (req : Nat)
    (h1 : W - PTRSIZE + 1 < req) (h2 : req < W) :
    ALIGN req PTRSIZE = 0 ∧ mini_cpgc_malloc req s = (none, s) := by
  have hW : W = 18446744073709551616 := by norm_num [W]
  have hP : PTRSIZE = 8 := rfl
  have ha : ALIGN req PTRSIZE = 0 := by
    rw [hW, hP] at h1
    rw [hW] at h2
    have : req = 18446744073709551610 ∨ req = 18446744073709551611 ∨
        req = 18446744073709551612 ∨ req = 18446744073709551613 ∨
        req = 18446744073709551614 ∨ req = 18446744073709551615 := by omega
    rcases this with h | h | h | h | h | h <;> subst h <;> decide
  exact ⟨ha, by simp [mini_cpgc_malloc, ha]⟩

/-- C10 witness: the claim instantiated at `req_size = SIZE_MAX`
(`2^64 - 1`) on the freshly initialized heap. -/
theorem C10_huge_request_rejected_witness :
    W - PTRSIZE + 1 < W - 1 ∧ W - 1 < W ∧
    (ALIGN (W - 1) PTRSIZE = 0 ∧ mini_cpgc_malloc (W - 1) sInit = (none, sInit)) :=
  ⟨by decide, by decide, C10_huge_request_rejected sInit (W - 1) (by decide) (by decide)⟩

end MiniCpgc

namespace MiniCpgc

/-- Reading the byte just written. -/
theorem writeByte_at (m : Mem) (a v : Nat) : writeByte m a v a = v := if_pos rfl

/-- Reading a byte other than the one written. -/
theorem writeByte_ne (m : Mem) (a v x : Nat) (h : x ≠ a) :
    writeByte m a v x = m x := if_neg h

/-- A byte outside the 8-byte span of a word store is untouched. -/
theorem writeWord_ne (m : Mem) (b v x : Nat) (h : x < b ∨ b + 8 ≤ x) :
    writeWord m b v x = m x := by
  unfold writeWord
  rw [writeByte_ne, writeByte_ne, writeByte_ne, writeByte_ne, writeByte_ne,
    writeByte_ne, writeByte_ne, writeByte_ne] <;> omega

/-- A word read disjoint from a word store sees the old memory. -/
theorem readWord_writeWord_ne (m : Mem) (a b v : Nat)
    (h : a + 8 ≤ b ∨ b + 8 ≤ a) :
    readWord (writeWord m b v) a = readWord m a := by
  unfold readWord
  rw [writeWord_ne, writeWord_ne, writeWord_ne, writeWord_ne, writeWord_ne,
    writeWord_ne, writeWord_ne, writeWord_ne] <;> omega

/-- Byte 0 of a word store. -/
theorem writeWord_get0 (m : Mem) (a v : Nat) : writeWord m a v a = v % 256 := by
  unfold writeWord
  rw [writeByte_ne, writeByte_ne, writeByte_ne, writeByte_ne, writeByte_ne,
    writeByte_ne, writeByte_ne, writeByte_at] <;> omega

/-- Byte 1 of a word store. -/
theorem writeWord_get1 (m : Mem) (a v : Nat) :
    writeWord m a v (a + 1) = v / 256 % 256 := by
  unfold writeWord
  rw [writeByte_ne, writeByte_ne, writeByte_ne, writeByte_ne, writeByte_ne,
    writeByte_ne, writeByte_at] <;> omega

/-- Byte 2 of a word store. -/
theorem writeWord_get2 (m : Mem) (a v : Nat) :
    writeWord m a v (a + 2) = v / 65536 % 256 := by
  unfold writeWord
  rw [writeByte_ne, writeByte_ne, writeByte_ne, writeByte_ne, writeByte_ne,
    writeByte_at] <;> omega

/-- Byte 3 of a word store. -/
theorem writeWord_get3 (m : Mem) (a v : Nat) :
    writeWord m a v (a + 3) = v / 16777216 % 256 := by
  unfold writeWord
  rw [writeByte_ne, writeByte_ne, writeByte_ne, writeByte_ne, writeByte_at] <;> omega

/-- Byte 4 of a word store. -/
theorem writeWord_get4 (m : Mem) (a v : Nat) :
    writeWord m a v (a + 4) = v / 4294967296 % 256 := by
  unfold writeWord
  rw [writeByte_ne, writeByte_ne, writeByte_ne, writeByte_at] <;> omega

/-- Byte 5 of a word store. -/
theorem writeWord_get5 (m : Mem) (a v : Nat) :
    writeWord m a v (a + 5) = v / 1099511627776 % 256 := by
  unfold writeWord
  rw [writeByte_ne, writeByte_ne, writeByte_at] <;> omega

/-- Byte 6 of a word store. -/
theorem writeWord_get6 (m : Mem) (a v : Nat) :
    writeWord m a v (a + 6) = v / 281474976710656 % 256 := by
  unfold writeWord
  rw [writeByte_ne, writeByte_at]
  omega

/-- Byte 7 of a word store. -/
theorem writeWord_get7 (m : Mem) (a v : Nat) :
    writeWord m a v (a + 7) = v / 72057594037927936 % 256 := by
  unfold writeWord
  rw [writeByte_at]

/-- Reading back the word just stored yields the value reduced to 64
bits. -/
theorem readWord_writeWord_self (m : Mem) (a v : Nat) :
    readWord (writeWord m a v) a = v % W := by
  have hW : W = 18446744073709551616 := by norm_num [W]
  unfold readWord
  rw [writeWord_get0, writeWord_get1, writeWord_get2, writeWord_get3,
    writeWord_get4, writeWord_get5, writeWord_get6, writeWord_get7, hW]
  omega

end MiniCpgc

namespace MiniCpgc

/-- C6 (amended): `mini_cpgc_malloc` performs no exhaustion check.  For
every state (the cursor anywhere past the space header) and every
request whose aligned size is nonzero, it returns the current cursor
plus one header and advances the cursor by the aligned size — with no
reference to `end` whatsoever, so the cursor may move arbitrarily far
past the end boundary.  No EXHAUSTED signal exists in the code. -/
theorem C6_malloc_never_exhausts (s : GCState) (req : Nat)
    (h0 : ALIGN req PTRSIZE ≠ 0)
    (h1 : s.from_start + 16 ≤ currentOf s)
    (h2 : currentOf s + 16 < W) :
    (mini_cpgc_malloc req s).1 = some ((currentOf s + BLOCK_HEADER_SIZE) % W) ∧
    currentOf (mini_cpgc_malloc req s).2 = (currentOf s + ALIGN req PTRSIZE) % W := by
  have hW : W = 18446744073709551616 := by norm_num [W]
  simp only [currentOf] at h1 h2 ⊢
  have hfsW : (s.from_start + 8) % W = s.from_start + 8 :=
    Nat.mod_eq_of_lt (by omega)
  rw [hfsW] at h1 h2 ⊢
  set c := readWord s.mem (s.from_start + 8) with hc
  have hcW : c % W = c := Nat.mod_eq_of_lt (by omega)
  have hc8W : (c + 8) % W = c + 8 := Nat.mod_eq_of_lt (by omega)
  simp only [mini_cpgc_malloc, if_neg h0, hfsW, ← hc, hcW, hc8W]
  constructor
  · trivial
  · rw [readWord_writeWord_self,
      readWord_writeWord_ne (writeWord s.mem (c + 8) (ALIGN req PTRSIZE))
        (s.from_start + 8) c FL_ALLOC (Or.inl (by omega)),
      readWord_writeWord_ne s.mem (s.from_start + 8) (c + 8)
        (ALIGN req PTRSIZE) (Or.inl (by omega)), ← hc, hW]
    omega

end MiniCpgc

namespace MiniCpgc

/-- C6 witness: the amended claim instantiated on the freshly
initialized heap (cursor 88) with a 32-byte request. -/
theorem C6_malloc_never_exhausts_witness :
    ALIGN 32 PTRSIZE ≠ 0 ∧ sInit.from_start + 16 ≤ currentOf sInit ∧
    currentOf sInit + 16 < W ∧
    ((mini_cpgc_malloc 32 sInit).1 = some ((currentOf sInit + BLOCK_HEADER_SIZE) % W) ∧
     currentOf (mini_cpgc_malloc 32 sInit).2 = (currentOf sInit + ALIGN 32 PTRSIZE) % W) :=
  ⟨by decide, by decide, by decide,
    C6_malloc_never_exhausts sInit 32 (by decide) (by decide) (by decide)⟩

/-- C6 counterexample: on the freshly initialized heap (cursor 88, end
393304) a request of 500000 bytes — whose aligned size drives the
cursor far past `end` — is *not* answered with an exhaustion signal:
the call returns the address 112 and leaves the cursor at 500088, past
the end boundary 393304.  The claimed `cursor + alignedSize > end ⇒
EXHAUSTED, cursor never past end` behavior does not exist. -/
theorem C6_overflow_allocation_succeeds :
    (mini_cpgc_malloc 500000 sInit).1 = some 112 ∧
    currentOf (mini_cpgc_malloc 500000 sInit).2 = 500088 ∧
    endOf (mini_cpgc_malloc 500000 sInit).2 = 393304 ∧
    endOf (mini_cpgc_malloc 500000 sInit).2 <
      currentOf (mini_cpgc_malloc 500000 sInit).2 := by decide

end MiniCpgc
